import Mathlib

/-!
Verification of `luscroll` (src/luscroll.c), a Linux middle-button-drag
scroll daemon. We shallowly embed the per-mouse gesture state machine, the
registration/unregistration logic and the event-loop lifecycle, and prove
the spec's claims about them.

Machine integers: `evt.value` is a C `int`; the program only negates and
doubles it, which the spec describes as plain signed arithmetic, so we model
it as `Int`. The `state` field of `LUMouse` is a C `int` used as a bit-flag
set; we model it as `Nat` with Lean's bitwise operations (`|||`, `&&&`,
`^^^`), writing the C `~MOUSE_STATE_SCROLLING` mask as the 32-bit complement
`0xFFFFFFFF ^^^ MOUSE_STATE_SCROLLING`, which agrees with the C semantics on
all reachable (non-negative, 32-bit) states.
-/

namespace Luscroll

/-! ## Linux input-event constants (linux/input-event-codes.h) -/

def EV_KEY : Nat := 0x01
def EV_REL : Nat := 0x02
def BTN_MIDDLE : Nat := 0x112
def REL_Y : Nat := 0x01
def REL_WHEEL_HI_RES : Nat := 0x0b
def EAGAIN : Int := 11

/-! ## Mouse state flags (enum at src/luscroll.c:20-24) -/

def MOUSE_STATE_NONE : Nat := 0
def MOUSE_STATE_DEAD : Nat := 1
def MOUSE_STATE_SCROLLING : Nat := 4

/-- The C expression `state &= ~MOUSE_STATE_SCROLLING` as a 32-bit mask. -/
def SCROLL_CLEAR_MASK : Nat := 0xFFFFFFFF ^^^ MOUSE_STATE_SCROLLING

/-- A `struct input_event` as the program reads and writes it: the program
only touches `.type`, `.code` and `.value`. -/
structure InputEvent where
  type : Nat
  code : Nat
  value : Int
deriving DecidableEq, Repr

/-- The gesture-state test `mouse->state & MOUSE_STATE_SCROLLING`
(src/luscroll.c:203): the mouse is in the Scrolling gesture state iff the
scrolling bit is set. -/
def scrolling (state : Nat) : Prop := state &&& MOUSE_STATE_SCROLLING ≠ 0

instance (state : Nat) : Decidable (scrolling state) := by
  unfold scrolling; infer_instance

/-- The liveness test `mouse->state & MOUSE_STATE_DEAD`
(src/luscroll.c:117). -/
def dead (state : Nat) : Prop := state &&& MOUSE_STATE_DEAD ≠ 0

instance (state : Nat) : Decidable (dead state) := by
  unfold dead; infer_instance

/-! ## Per-event gesture processing

Embedding of the body of the inner `do { ... } while` loop in `main`
(src/luscroll.c:194-209): first the state transition on middle-button key
events, then the forward/translate/drop decision. Returns the new state and
the list of events written to this mouse's uinput sink by this iteration. -/

def process_event (state : Nat) (evt : InputEvent) : Nat × List InputEvent :=
  let state :=
    if evt.type = EV_KEY ∧ evt.code = BTN_MIDDLE then
      if evt.value ≠ 0 then
        state ||| MOUSE_STATE_SCROLLING
      else
        state &&& SCROLL_CLEAR_MASK
    else state
  if state &&& MOUSE_STATE_SCROLLING ≠ 0 then
    if evt.type = EV_REL ∧ evt.code = REL_Y then
      (state, [⟨EV_REL, REL_WHEEL_HI_RES, -evt.value * 2⟩])
    else
      (state, [])
  else
    (state, [evt])

/-- Processing a whole burst of buffered events in order, concatenating the
events written to the sink. -/
def process_events (state : Nat) : List InputEvent → Nat × List InputEvent
  | [] => (state, [])
  | evt :: rest =>
    let r1 := process_event state evt
    let r2 := process_events r1.1 rest
    (r2.1, r1.2 ++ r2.2)

/-- A middle-button release event (`EV_KEY`/`BTN_MIDDLE` with value 0). -/
def is_mid_release (evt : InputEvent) : Bool :=
  decide (evt.type = EV_KEY) && decide (evt.code = BTN_MIDDLE) && decide (evt.value = 0)

/-- Number of middle-button-release events in a burst that arrive while the
gesture state (at time of receipt, before the event's own transition) is not
Scrolling. -/
def count_idle_releases (state : Nat) : List InputEvent → Nat
  | [] => 0
  | evt :: rest =>
    (if ¬ scrolling state ∧ is_mid_release evt then 1 else 0) +
      count_idle_releases (process_event state evt).1 rest

/-! ## Registry, registration and lifecycle

`LUMouse` nodes live in the intrusive singly-linked list `g.mice`; we model
the list as `List LUMouse` and C pointer identity as the `id` field (distinct
nodes have distinct ids). External libevdev/OS calls are modelled by an
`Action` trace recording, in program order, each resource acquisition,
release, sink write and log line the code performs. -/

structure LUMouse where
  id : Nat
  state : Nat
deriving DecidableEq, Repr

inductive Action where
  | openFd (id : Nat)
  | freeDev (id : Nat)
  | closeFd (id : Nat)
  | createUinput (id : Nat)
  | destroyUinput (id : Nat)
  | grab (id : Nat)
  | ungrab (id : Nat)
  | freeMouse (id : Nat)
  | writeEvent (id : Nat) (evt : InputEvent)
  | logMsg (s : String)
deriving DecidableEq, Repr

def DEV_INPUT : String := "/dev/input"

/-- Character-by-character prefix comparison, the behaviour of
`strncmp(str, substr, strlen(substr)) == 0`. -/
def start_with_chars : List Char → List Char → Bool
  | _, [] => true
  | [], _ :: _ => false
  | c :: cs, d :: ds => c = d && start_with_chars cs ds

/-- `start_with` (src/luscroll.c:44-46): `!strncmp(str, substr, strlen(substr))`. -/
def start_with (str substr : String) : Bool := start_with_chars str.data substr.data

/-- The list surgery of `unregister_mouse` (src/luscroll.c:52-61): if the
head is the mouse, drop it; otherwise splice out the first node whose `next`
is the mouse. On a well-formed list this removes the first node identical to
`mouse`, and leaves the list unchanged when `mouse` is not an element. -/
def unlink : List LUMouse → LUMouse → List LUMouse
  | [], _ => []
  | m :: rest, mouse => if m.id = mouse.id then rest else m :: unlink rest mouse

/-- `unregister_mouse` (src/luscroll.c:48-66): a null mouse is ignored;
otherwise the node is unlinked from the registry, then the grab is released,
the descriptor freed, the fd closed and the node freed. Note the source
releases these three resources but never calls `libevdev_uinput_destroy`. -/
def unregister_mouse (mice : List LUMouse) : Option LUMouse → List LUMouse × List Action
  | none => (mice, [])
  | some mouse =>
    (unlink mice mouse,
     [Action.ungrab mouse.id, Action.freeDev mouse.id, Action.closeFd mouse.id,
      Action.freeMouse mouse.id])

/-- Outcomes of the external calls made during one registration attempt:
`calloc`, `libevdev_new_from_fd`, the two capability queries on the built
descriptor, `libevdev_uinput_create_from_device` and `libevdev_grab`.
`fresh_id` is the identity (address) of the `calloc`ed node. -/
structure RegAttempt where
  calloc_ok : Bool
  new_from_fd_ok : Bool
  has_EV_REL : Bool
  has_BTN_MIDDLE : Bool
  uinput_ok : Bool
  grab_ok : Bool
  fresh_id : Nat
deriving DecidableEq, Repr

/-- The classifier's eligibility test `is_mouse` (src/luscroll.c:81-83). -/
def is_mouse (att : RegAttempt) : Bool := att.has_EV_REL && att.has_BTN_MIDDLE

/-- `check_register_mouse` (src/luscroll.c:68-111), transcribed branch by
branch. A null or non-`/dev/input/event` path returns immediately; a failed
`calloc` skips the body and `unregister_mouse(NULL)` is a no-op; otherwise
the attempt proceeds through descriptor construction, classification, uinput
creation and grab, and on any failure falls through to
`unregister_mouse(mouse)`; on success the node is pushed at the front of the
registry. -/
def check_register_mouse (mice : List LUMouse) (path : Option String)
    (att : RegAttempt) : List LUMouse × List Action :=
  match path with
  | none => (mice, [])
  | some p =>
    if start_with p (DEV_INPUT ++ "/event") = false then
      (mice, [])
    else if att.calloc_ok = false then
      unregister_mouse mice none
    else
      let mouse : LUMouse := ⟨att.fresh_id, MOUSE_STATE_NONE⟩
      let acts1 := [Action.openFd mouse.id]
      if att.new_from_fd_ok = false then
        let acts2 := acts1 ++ [Action.logMsg ("Failed to open device " ++ p)]
        let u := unregister_mouse mice (some mouse)
        (u.1, acts2 ++ u.2)
      else if is_mouse att = false then
        let u := unregister_mouse mice (some mouse)
        (u.1, acts1 ++ u.2)
      else if att.uinput_ok = false then
        let acts2 := acts1 ++ [Action.logMsg ("Failed to create uinput from device " ++ p)]
        let u := unregister_mouse mice (some mouse)
        (u.1, acts2 ++ u.2)
      else
        let acts2 := acts1 ++ [Action.createUinput mouse.id]
        if att.grab_ok = false then
          let acts3 := acts2 ++ [Action.logMsg ("Failed to grab device " ++ p)]
          let u := unregister_mouse mice (some mouse)
          (u.1, acts3 ++ u.2)
        else
          let acts3 := acts2 ++ [Action.grab mouse.id]
          (mouse :: mice, acts3 ++ [Action.logMsg ("Registered mouse " ++ p)])

/-- One mouse's view of a drain burst in the event loop: the buffered events
returned by successive `libevdev_next_event` calls, then the negative status
of the call that ends the burst (`-EAGAIN` for the normal would-block end,
anything else is a read failure). -/
structure ReadScript where
  events : List InputEvent
  status : Int
deriving DecidableEq, Repr

/-- The per-mouse body of the event loop (src/luscroll.c:177-214): drain all
buffered events through the gesture state machine, writing the resulting
events to this mouse's sink; if the terminating status is not `-EAGAIN`, log
the failure code and mark the mouse Dead. -/
def drain_mouse (mouse : LUMouse) (script : ReadScript) : LUMouse × List Action :=
  let r := process_events mouse.state script.events
  let writes := r.2.map (Action.writeEvent mouse.id)
  if script.status ≠ -EAGAIN then
    (⟨mouse.id, r.1 ||| MOUSE_STATE_DEAD⟩,
     writes ++ [Action.logMsg ("libevdev_next_event returned " ++
       toString script.status ++ ", dropping...")])
  else
    (⟨mouse.id, r.1⟩, writes)

/-- The traversal of `unregister_dead_mice` (src/luscroll.c:113-121): walk
the original node chain (`todo`), saving each node's successor first, and
unregister every node whose Dead flag is set from the current registry. -/
def sweep_dead (g_mice : List LUMouse) : List LUMouse → List LUMouse × List Action
  | [] => (g_mice, [])
  | m :: rest =>
    if m.state &&& MOUSE_STATE_DEAD ≠ 0 then
      let u := unregister_mouse g_mice (some m)
      let r := sweep_dead u.1 rest
      (r.1, u.2 ++ r.2)
    else
      sweep_dead g_mice rest

def unregister_dead_mice (mice : List LUMouse) : List LUMouse × List Action :=
  sweep_dead mice mice

/-- One iteration of the steady-state loop over the registry, after hot-plug
draining (src/luscroll.c:177-217): service every mouse, then sweep the dead
ones. `scripts` gives each mouse's read outcomes for this iteration. -/
def loop_iteration (scripts : Nat → ReadScript) (mice : List LUMouse) :
    List LUMouse × List Action :=
  let serviced := mice.map (fun m => drain_mouse m (scripts m.id))
  let mice' := serviced.map (fun r => r.1)
  let acts := (serviced.map (fun r => r.2)).flatten
  let sweep := unregister_dead_mice mice'
  (sweep.1, acts ++ sweep.2)

/-- The shutdown path (src/luscroll.c:220-223): after the stop flag is
observed, mark every registered mouse Dead and run one final sweep. -/
def shutdown_sweep (mice : List LUMouse) : List LUMouse × List Action :=
  unregister_dead_mice (mice.map (fun m => ⟨m.id, m.state ||| MOUSE_STATE_DEAD⟩))

/-- Recognizes a log-line action. -/
def is_log : Action → Bool
  | Action.logMsg _ => true
  | _ => false

/-- Recognizes a sink-destruction action (`libevdev_uinput_destroy`). -/
def is_destroy_uinput : Action → Bool
  | Action.destroyUinput _ => true
  | _ => false

/-- Recognizes the grab-release action for a given mouse identity. -/
def is_ungrab_of (i : Nat) : Action → Bool
  | Action.ungrab j => i = j
  | _ => false

/-- The per-mouse resource releases performed by `unregister_mouse`. -/
def release_trace (m : LUMouse) : List Action :=
  [Action.ungrab m.id, Action.freeDev m.id, Action.closeFd m.id, Action.freeMouse m.id]

/-! ## Bit-flag helper lemmas -/

lemma testBit_scroll_flag (i : Nat) :
    Nat.testBit MOUSE_STATE_SCROLLING i = decide (i = 2) := by
  match i with
  | 0 => decide
  | 1 => decide
  | 2 => decide
  | (n + 3) =>
    rw [Nat.testBit_eq_false_of_lt]
    · simp
    · calc MOUSE_STATE_SCROLLING = 4 := rfl
        _ < 2 ^ 3 := by decide
        _ ≤ 2 ^ (n + 3) := Nat.pow_le_pow_right (by decide) (by omega)

lemma lor_scroll_land (s : Nat) :
    (s ||| MOUSE_STATE_SCROLLING) &&& MOUSE_STATE_SCROLLING = MOUSE_STATE_SCROLLING := by
  apply Nat.eq_of_testBit_eq
  intro i
  rw [Nat.testBit_land, Nat.testBit_lor]
  cases h : Nat.testBit MOUSE_STATE_SCROLLING i <;> simp [h]

lemma scrolling_after_press (s : Nat) : scrolling (s ||| MOUSE_STATE_SCROLLING) := by
  unfold scrolling
  rw [lor_scroll_land]
  decide

lemma clear_scroll_land (s : Nat) :
    (s &&& SCROLL_CLEAR_MASK) &&& MOUSE_STATE_SCROLLING = 0 := by
  rw [Nat.land_assoc]
  have h : SCROLL_CLEAR_MASK &&& MOUSE_STATE_SCROLLING = 0 := by decide
  rw [h]
  simp

lemma not_scrolling_after_release (s : Nat) :
    ¬ scrolling (s &&& SCROLL_CLEAR_MASK) := by
  unfold scrolling
  rw [clear_scroll_land]
  simp

lemma testBit_two_of_scrolling {s : Nat} (h : scrolling s) : s.testBit 2 = true := by
  by_contra hb
  rw [Bool.not_eq_true] at hb
  apply h
  apply Nat.eq_of_testBit_eq
  intro i
  rw [Nat.testBit_land, testBit_scroll_flag, Nat.zero_testBit]
  by_cases h2 : i = 2
  · subst h2; simp [hb]
  · simp [h2]

lemma lor_scroll_of_scrolling {s : Nat} (h : scrolling s) :
    s ||| MOUSE_STATE_SCROLLING = s := by
  apply Nat.eq_of_testBit_eq
  intro i
  rw [Nat.testBit_lor, testBit_scroll_flag]
  by_cases h2 : i = 2
  · subst h2; simp [testBit_two_of_scrolling h]
  · simp [h2]

lemma lor_dead_land (s : Nat) :
    (s ||| MOUSE_STATE_DEAD) &&& MOUSE_STATE_DEAD = MOUSE_STATE_DEAD := by
  apply Nat.eq_of_testBit_eq
  intro i
  rw [Nat.testBit_land, Nat.testBit_lor]
  cases h : Nat.testBit MOUSE_STATE_DEAD i <;> simp [h]

/-! ## Registry list lemmas -/

lemma unlink_not_mem {mice : List LUMouse} {mouse : LUMouse}
    (h : mouse.id ∉ mice.map (fun m => m.id)) : unlink mice mouse = mice := by
  induction mice with
  | nil => rfl
  | cons m rest ih =>
    simp only [List.map_cons, List.mem_cons, not_or] at h
    unfold unlink
    rw [if_neg (fun he => h.1 he.symm), ih h.2]

lemma unlink_length_le (mice : List LUMouse) (mouse : LUMouse) :
    (unlink mice mouse).length ≤ mice.length := by
  induction mice with
  | nil => simp [unlink]
  | cons m rest ih =>
    unfold unlink
    by_cases h : m.id = mouse.id
    · simp [h]
    · simp only [if_neg h, List.length_cons]
      omega

lemma sweep_dead_all (l : List LUMouse)
    (h : ∀ m ∈ l, m.state &&& MOUSE_STATE_DEAD ≠ 0) :
    sweep_dead l l = ([], l.flatMap release_trace) := by
  induction l with
  | nil => rfl
  | cons m rest ih =>
    have hm := h m (by simp)
    have hrest : ∀ x ∈ rest, x.state &&& MOUSE_STATE_DEAD ≠ 0 :=
      fun x hx => h x (by simp [hx])
    unfold sweep_dead
    rw [if_pos hm]
    simp only [unregister_mouse, unlink, eq_self_iff_true, if_true]
    rw [ih hrest]
    simp [release_trace]

lemma countP_ungrab_release_traces (mice : List LUMouse) (i : Nat) :
    (mice.flatMap release_trace).countP (is_ungrab_of i) =
      (mice.map (fun m => m.id)).count i := by
  induction mice with
  | nil => rfl
  | cons m rest ih =>
    rw [List.flatMap_cons, List.countP_append, ih]
    simp only [release_trace, List.countP_cons, List.countP_nil, List.map_cons,
      List.count_cons, is_ungrab_of]
    by_cases h : i = m.id
    · simp [h, Nat.add_comm]
    · have h' : ¬ m.id = i := fun he => h (Eq.symm he)
      simp [h, h']

/-! ## Behaviour of `check_register_mouse` branch by branch -/

lemma check_register_reject (mice : List LUMouse) (p : String) (att : RegAttempt)
    (hpath : start_with p (DEV_INPUT ++ "/event") = true)
    (hcal : att.calloc_ok = true) (hfd : att.new_from_fd_ok = true)
    (him : is_mouse att = false) :
    check_register_mouse mice (some p) att =
      (unlink mice ⟨att.fresh_id, MOUSE_STATE_NONE⟩,
       Action.openFd att.fresh_id :: release_trace ⟨att.fresh_id, MOUSE_STATE_NONE⟩) := by
  simp [check_register_mouse, hpath, hcal, hfd, him, unregister_mouse, release_trace]

lemma check_register_success (mice : List LUMouse) (p : String) (att : RegAttempt)
    (hpath : start_with p (DEV_INPUT ++ "/event") = true)
    (hcal : att.calloc_ok = true) (hfd : att.new_from_fd_ok = true)
    (him : is_mouse att = true) (huin : att.uinput_ok = true)
    (hgrab : att.grab_ok = true) :
    check_register_mouse mice (some p) att =
      (⟨att.fresh_id, MOUSE_STATE_NONE⟩ :: mice,
       [Action.openFd att.fresh_id, Action.createUinput att.fresh_id,
        Action.grab att.fresh_id, Action.logMsg ("Registered mouse " ++ p)]) := by
  simp [check_register_mouse, hpath, hcal, hfd, him, huin, hgrab]

/-! ## Behaviour of `process_event` case by case -/

lemma process_event_press (s : Nat) (v : Int) (hv : v ≠ 0) :
    process_event s ⟨EV_KEY, BTN_MIDDLE, v⟩ = (s ||| MOUSE_STATE_SCROLLING, []) := by
  have h4 : (s ||| MOUSE_STATE_SCROLLING) &&& MOUSE_STATE_SCROLLING ≠ 0 :=
    scrolling_after_press s
  simp [process_event, EV_KEY, EV_REL, BTN_MIDDLE, REL_Y, hv, h4]

lemma process_event_release (s : Nat) :
    process_event s ⟨EV_KEY, BTN_MIDDLE, 0⟩ =
      (s &&& SCROLL_CLEAR_MASK, [⟨EV_KEY, BTN_MIDDLE, 0⟩]) := by
  have h0 : (s &&& SCROLL_CLEAR_MASK) &&& MOUSE_STATE_SCROLLING = 0 := clear_scroll_land s
  simp [process_event, EV_KEY, BTN_MIDDLE, h0]

lemma process_event_rel_y (s : Nat) (evt : InputEvent) (hS : scrolling s)
    (hRel : evt.type = EV_REL ∧ evt.code = REL_Y) :
    process_event s evt = (s, [⟨EV_REL, REL_WHEEL_HI_RES, -evt.value * 2⟩]) := by
  have h4 : s &&& MOUSE_STATE_SCROLLING ≠ 0 := hS
  have hNotMid : ¬ (evt.type = EV_KEY ∧ evt.code = BTN_MIDDLE) := by
    rintro ⟨h1, -⟩
    rw [hRel.1] at h1
    exact absurd h1 (by decide)
  simp [process_event, hNotMid, h4, hRel.1, hRel.2, EV_KEY, EV_REL, BTN_MIDDLE, REL_Y]

lemma process_event_other_idle (s : Nat) (evt : InputEvent) (hIdle : ¬ scrolling s)
    (hNotMid : ¬ (evt.type = EV_KEY ∧ evt.code = BTN_MIDDLE)) :
    process_event s evt = (s, [evt]) := by
  have h4 : ¬ (s &&& MOUSE_STATE_SCROLLING ≠ 0) := hIdle
  simp [process_event, hNotMid, h4]

lemma process_event_other_scrolling (s : Nat) (evt : InputEvent) (hS : scrolling s)
    (hNotMid : ¬ (evt.type = EV_KEY ∧ evt.code = BTN_MIDDLE))
    (hNotRel : ¬ (evt.type = EV_REL ∧ evt.code = REL_Y)) :
    process_event s evt = (s, []) := by
  have h4 : s &&& MOUSE_STATE_SCROLLING ≠ 0 := hS
  simp [process_event, hNotMid, hNotRel, h4]

/-- Each processed event contributes exactly one forwarded middle-button
release to the sink iff it is itself a middle-button release: the release's
own transition always clears the scrolling bit before the forwarding
decision, so every release is forwarded, and no other event is ever
rewritten into a release. -/
lemma countP_mid_release_process_event (s : Nat) (evt : InputEvent) :
    (process_event s evt).2.countP is_mid_release =
      (if is_mid_release evt then 1 else 0) := by
  obtain ⟨t, c, v⟩ := evt
  by_cases hMid : t = EV_KEY ∧ c = BTN_MIDDLE
  · obtain ⟨ht, hc⟩ := hMid
    subst ht; subst hc
    by_cases hv : v = 0
    · subst hv
      rw [process_event_release]
      simp [is_mid_release]
    · rw [process_event_press s v hv]
      simp [is_mid_release, hv]
  · have hR : is_mid_release ⟨t, c, v⟩ = false := by
      simp only [is_mid_release, Bool.and_eq_false_iff, decide_eq_false_iff_not]
      by_cases h1 : t = EV_KEY
      · left; right; intro h2; exact hMid ⟨h1, h2⟩
      · left; left; exact h1
    by_cases hS : scrolling s
    · by_cases hRel : t = EV_REL ∧ c = REL_Y
      · rw [process_event_rel_y s ⟨t, c, v⟩ hS hRel, hR]
        simp [is_mid_release, EV_REL, EV_KEY]
      · rw [process_event_other_scrolling s ⟨t, c, v⟩ hS hMid hRel]
        simp [hR]
    · rw [process_event_other_idle s ⟨t, c, v⟩ hS hMid]
      simp [hR]

lemma countP_mid_release_process_events (s : Nat) (evs : List InputEvent) :
    (process_events s evs).2.countP is_mid_release = evs.countP is_mid_release := by
  induction evs generalizing s with
  | nil => simp [process_events]
  | cons e rest ih =>
    simp only [process_events, List.countP_append, List.countP_cons]
    rw [countP_mid_release_process_event, ih]
    by_cases h : is_mid_release e
    · simp [h]
      omega
    · simp [h]

/-! ## Claim theorems: gesture state machine -/

/-- C1: with the gesture state Scrolling, a relative vertical-motion event
with value `v` emits exactly one high-resolution wheel event with value
`-2*v` to the sink, and the relative-motion event itself is not forwarded
unchanged; the sequence [BTN_MIDDLE down, REL_Y=+5, REL_Y=-3, BTN_MIDDLE up]
from Idle forwards exactly wheel(-10), wheel(+6), BTN_MIDDLE up and ends in
Idle. -/
theorem scrolling_translates_rel_y (s : Nat) (v : Int) (h : scrolling s) :
    process_event s ⟨EV_REL, REL_Y, v⟩ = (s, [⟨EV_REL, REL_WHEEL_HI_RES, -v * 2⟩]) ∧
    (⟨EV_REL, REL_Y, v⟩ : InputEvent) ∉ (process_event s ⟨EV_REL, REL_Y, v⟩).2 ∧
    process_events MOUSE_STATE_NONE
        [⟨EV_KEY, BTN_MIDDLE, 1⟩, ⟨EV_REL, REL_Y, 5⟩,
         ⟨EV_REL, REL_Y, -3⟩, ⟨EV_KEY, BTN_MIDDLE, 0⟩] =
      (MOUSE_STATE_NONE,
       [⟨EV_REL, REL_WHEEL_HI_RES, -10⟩, ⟨EV_REL, REL_WHEEL_HI_RES, 6⟩,
        ⟨EV_KEY, BTN_MIDDLE, 0⟩]) := by
  have he := process_event_rel_y s ⟨EV_REL, REL_Y, v⟩ h ⟨rfl, rfl⟩
  refine ⟨he, ?_, by decide⟩
  rw [he]
  simp [EV_REL, REL_Y, REL_WHEEL_HI_RES]

/-- Witness for C1 at the concrete Scrolling state 4 and motion value 5. -/
theorem scrolling_translates_rel_y_witness :
    scrolling 4 ∧
    (process_event 4 ⟨EV_REL, REL_Y, 5⟩ = (4, [⟨EV_REL, REL_WHEEL_HI_RES, -5 * 2⟩]) ∧
     (⟨EV_REL, REL_Y, 5⟩ : InputEvent) ∉ (process_event 4 ⟨EV_REL, REL_Y, 5⟩).2 ∧
     process_events MOUSE_STATE_NONE
         [⟨EV_KEY, BTN_MIDDLE, 1⟩, ⟨EV_REL, REL_Y, 5⟩,
          ⟨EV_REL, REL_Y, -3⟩, ⟨EV_KEY, BTN_MIDDLE, 0⟩] =
       (MOUSE_STATE_NONE,
        [⟨EV_REL, REL_WHEEL_HI_RES, -10⟩, ⟨EV_REL, REL_WHEEL_HI_RES, 6⟩,
         ⟨EV_KEY, BTN_MIDDLE, 0⟩])) :=
  ⟨by decide, scrolling_translates_rel_y 4 5 (by decide)⟩

/-- C2: a middle-button key event with nonzero value moves the gesture state
to Scrolling and is not forwarded; a middle-button key event with zero value
moves the state to Idle regardless of the current state and is forwarded
verbatim. -/
theorem mid_button_transitions (s : Nat) (v : Int) :
    (v ≠ 0 →
      process_event s ⟨EV_KEY, BTN_MIDDLE, v⟩ = (s ||| MOUSE_STATE_SCROLLING, []) ∧
      scrolling (s ||| MOUSE_STATE_SCROLLING)) ∧
    (process_event s ⟨EV_KEY, BTN_MIDDLE, 0⟩ =
        (s &&& SCROLL_CLEAR_MASK, [⟨EV_KEY, BTN_MIDDLE, 0⟩]) ∧
      ¬ scrolling (s &&& SCROLL_CLEAR_MASK)) := by
  refine ⟨fun hv => ⟨process_event_press s v hv, scrolling_after_press s⟩,
    process_event_release s, not_scrolling_after_release s⟩

/-- Witness for C2 at state 0 (Idle) and press value 1. -/
theorem mid_button_transitions_witness :
    (1 : Int) ≠ 0 ∧
    (process_event 0 ⟨EV_KEY, BTN_MIDDLE, 1⟩ = (0 ||| MOUSE_STATE_SCROLLING, []) ∧
     scrolling (0 ||| MOUSE_STATE_SCROLLING)) ∧
    (process_event 0 ⟨EV_KEY, BTN_MIDDLE, 0⟩ =
        (0 &&& SCROLL_CLEAR_MASK, [⟨EV_KEY, BTN_MIDDLE, 0⟩]) ∧
      ¬ scrolling (0 &&& SCROLL_CLEAR_MASK)) :=
  ⟨by decide, (mid_button_transitions 0 1).1 (by decide), (mid_button_transitions 0 1).2⟩

/-- C3: with the gesture state Idle, any event that is not a middle-button
press (a non-button event, or a middle-button release) is forwarded to the
sink with identical type, code and value. -/
theorem idle_passthrough (s : Nat) (evt : InputEvent) (hIdle : ¬ scrolling s)
    (hNotPress : ¬ (evt.type = EV_KEY ∧ evt.code = BTN_MIDDLE ∧ evt.value ≠ 0)) :
    (process_event s evt).2 = [evt] := by
  by_cases hMid : evt.type = EV_KEY ∧ evt.code = BTN_MIDDLE
  · have hv : evt.value = 0 := by
      by_contra hv
      exact hNotPress ⟨hMid.1, hMid.2, hv⟩
    obtain ⟨t, c, v⟩ := evt
    obtain ⟨ht, hc⟩ := hMid
    simp only at ht hc hv
    subst ht; subst hc; subst hv
    rw [process_event_release]
  · rw [process_event_other_idle s evt hIdle hMid]

/-- Witness for C3 at state 0 and a relative-motion event. -/
theorem idle_passthrough_witness :
    ¬ scrolling 0 ∧
    ¬ ((⟨EV_REL, REL_Y, 7⟩ : InputEvent).type = EV_KEY ∧
       (⟨EV_REL, REL_Y, 7⟩ : InputEvent).code = BTN_MIDDLE ∧
       (⟨EV_REL, REL_Y, 7⟩ : InputEvent).value ≠ 0) ∧
    (process_event 0 ⟨EV_REL, REL_Y, 7⟩).2 = [⟨EV_REL, REL_Y, 7⟩] :=
  ⟨by decide, by decide, idle_passthrough 0 ⟨EV_REL, REL_Y, 7⟩ (by decide) (by decide)⟩

/-- C4 counterexample: in the burst [BTN_MIDDLE down, BTN_MIDDLE up] starting
from Idle, one middle-button release is forwarded, but zero release events
were received while the state was Idle at the time of receipt (the release
arrived while Scrolling). -/
theorem forwarded_release_count_cex :
    (process_events MOUSE_STATE_NONE
        [⟨EV_KEY, BTN_MIDDLE, 1⟩, ⟨EV_KEY, BTN_MIDDLE, 0⟩]).2.countP is_mid_release = 1 ∧
    count_idle_releases MOUSE_STATE_NONE
        [⟨EV_KEY, BTN_MIDDLE, 1⟩, ⟨EV_KEY, BTN_MIDDLE, 0⟩] = 0 := by
  decide

/-- C4 amended: for every burst processed from any state, the number of
middle-button-release events forwarded to the sink equals the total number of
middle-button-release events received (every release is forwarded, because a
release's own transition moves the state to Idle before the forwarding
decision). -/
theorem forwarded_release_count (s : Nat) (evs : List InputEvent) :
    (process_events s evs).2.countP is_mid_release = evs.countP is_mid_release :=
  countP_mid_release_process_events s evs

/-- C9: a further middle-button press received while already Scrolling is
idempotent: the state stays exactly the same (still Scrolling) and nothing is
forwarded to the sink. -/
theorem scrolling_press_idempotent (s : Nat) (v : Int) (hS : scrolling s)
    (hv : v ≠ 0) :
    process_event s ⟨EV_KEY, BTN_MIDDLE, v⟩ = (s, []) ∧ scrolling s := by
  refine ⟨?_, hS⟩
  rw [process_event_press s v hv, lor_scroll_of_scrolling hS]

/-- Witness for C9 at the concrete Scrolling state 4 and press value 1. -/
theorem scrolling_press_idempotent_witness :
    scrolling 4 ∧ (1 : Int) ≠ 0 ∧
    (process_event 4 ⟨EV_KEY, BTN_MIDDLE, 1⟩ = (4, []) ∧ scrolling 4) :=
  ⟨by decide, by decide, scrolling_press_idempotent 4 1 (by decide) (by decide)⟩

/-! ## Claim theorems: registration and lifecycle -/

/-- C5: for a candidate device (valid path, allocation and descriptor
construction succeeded), registration is gated exactly by the capability
test: with the remaining acquisition steps succeeding, an entry is added iff
the descriptor reports both EV_REL and EV_KEY/BTN_MIDDLE; and when either
capability is missing, the registry is left unchanged, the descriptor is
freed, the handle is closed, and no diagnostic line is logged. -/
theorem classifier_eligibility (mice : List LUMouse) (p : String) (att : RegAttempt)
    (hpath : start_with p (DEV_INPUT ++ "/event") = true)
    (hcal : att.calloc_ok = true) (hfd : att.new_from_fd_ok = true)
    (hfresh : att.fresh_id ∉ mice.map (fun m => m.id)) :
    (att.uinput_ok = true → att.grab_ok = true →
      ((check_register_mouse mice (some p) att).1.length = mice.length + 1 ↔
        is_mouse att = true)) ∧
    (is_mouse att = false →
      (check_register_mouse mice (some p) att).1 = mice ∧
      Action.freeDev att.fresh_id ∈ (check_register_mouse mice (some p) att).2 ∧
      Action.closeFd att.fresh_id ∈ (check_register_mouse mice (some p) att).2 ∧
      (check_register_mouse mice (some p) att).2.countP is_log = 0) := by
  constructor
  · intro huin hgrab
    by_cases him : is_mouse att = true
    · rw [check_register_success mice p att hpath hcal hfd him huin hgrab]
      simp [him]
    · have him' : is_mouse att = false := by
        cases h : is_mouse att
        · rfl
        · exact absurd h him
      rw [check_register_reject mice p att hpath hcal hfd him']
      constructor
      · intro hlen
        exfalso
        have hle := unlink_length_le mice ⟨att.fresh_id, MOUSE_STATE_NONE⟩
        simp only at hlen
        omega
      · intro h
        exact absurd h him
  · intro him
    rw [check_register_reject mice p att hpath hcal hfd him, unlink_not_mem hfresh]
    refine ⟨rfl, ?_, ?_, ?_⟩ <;> simp [release_trace, is_log]

/-- Witness for C5: an `/dev/input/event` device reporting EV_REL but not
BTN_MIDDLE is rejected with no registry change and no log line. -/
theorem classifier_eligibility_witness :
    start_with "/dev/input/event5" (DEV_INPUT ++ "/event") = true ∧
    (RegAttempt.mk true true true false true true 7).fresh_id ∉
      ([⟨1, MOUSE_STATE_NONE⟩] : List LUMouse).map (fun m => m.id) ∧
    ((((RegAttempt.mk true true true false true true 7).uinput_ok = true →
        (RegAttempt.mk true true true false true true 7).grab_ok = true →
      ((check_register_mouse [⟨1, MOUSE_STATE_NONE⟩] (some "/dev/input/event5")
          (RegAttempt.mk true true true false true true 7)).1.length =
        ([⟨1, MOUSE_STATE_NONE⟩] : List LUMouse).length + 1 ↔
        is_mouse (RegAttempt.mk true true true false true true 7) = true))) ∧
    (is_mouse (RegAttempt.mk true true true false true true 7) = false →
      (check_register_mouse [⟨1, MOUSE_STATE_NONE⟩] (some "/dev/input/event5")
          (RegAttempt.mk true true true false true true 7)).1 = [⟨1, MOUSE_STATE_NONE⟩] ∧
      Action.freeDev 7 ∈ (check_register_mouse [⟨1, MOUSE_STATE_NONE⟩]
          (some "/dev/input/event5") (RegAttempt.mk true true true false true true 7)).2 ∧
      Action.closeFd 7 ∈ (check_register_mouse [⟨1, MOUSE_STATE_NONE⟩]
          (some "/dev/input/event5") (RegAttempt.mk true true true false true true 7)).2 ∧
      (check_register_mouse [⟨1, MOUSE_STATE_NONE⟩] (some "/dev/input/event5")
          (RegAttempt.mk true true true false true true 7)).2.countP is_log = 0)) :=
  ⟨by decide, by decide,
   classifier_eligibility [⟨1, MOUSE_STATE_NONE⟩] "/dev/input/event5"
     (RegAttempt.mk true true true false true true 7)
     (by decide) (by decide) (by decide) (by decide)⟩

/-- C6 (code bug): in a registration attempt where the virtual sink was
created but the exclusive grab fails, the code logs the failure, leaves the
registry unchanged, frees the descriptor and closes the handle — but never
destroys the created sink: the program contains no `libevdev_uinput_destroy`
call, so the leaked virtual device outlives the failed attempt. -/
theorem registration_grab_fail_leaks_sink :
    (check_register_mouse [⟨1, MOUSE_STATE_NONE⟩] (some "/dev/input/event5")
        (RegAttempt.mk true true true true true false 7)).1 = [⟨1, MOUSE_STATE_NONE⟩] ∧
    Action.createUinput 7 ∈ (check_register_mouse [⟨1, MOUSE_STATE_NONE⟩]
        (some "/dev/input/event5") (RegAttempt.mk true true true true true false 7)).2 ∧
    Action.freeDev 7 ∈ (check_register_mouse [⟨1, MOUSE_STATE_NONE⟩]
        (some "/dev/input/event5") (RegAttempt.mk true true true true true false 7)).2 ∧
    Action.closeFd 7 ∈ (check_register_mouse [⟨1, MOUSE_STATE_NONE⟩]
        (some "/dev/input/event5") (RegAttempt.mk true true true true true false 7)).2 ∧
    Action.logMsg "Failed to grab device /dev/input/event5" ∈
      (check_register_mouse [⟨1, MOUSE_STATE_NONE⟩]
        (some "/dev/input/event5") (RegAttempt.mk true true true true true false 7)).2 ∧
    (check_register_mouse [⟨1, MOUSE_STATE_NONE⟩] (some "/dev/input/event5")
        (RegAttempt.mk true true true true true false 7)).2.countP is_destroy_uinput = 0 := by
  decide

/-- C7 (code bug): a mouse whose read fails with `-5` (not `-EAGAIN`) has the
failure logged, is marked Dead and removed from the registry within the same
loop iteration with its grab released, descriptor freed and handle closed —
but its sink is never destroyed (no `libevdev_uinput_destroy` call exists);
and a would-block (`-EAGAIN`) burst end marks nothing Dead. -/
theorem read_failure_removal_leaks_sink :
    (loop_iteration (fun _ => ⟨[], -5⟩) [⟨1, MOUSE_STATE_NONE⟩]).1 = [] ∧
    Action.logMsg "libevdev_next_event returned -5, dropping..." ∈
      (loop_iteration (fun _ => ⟨[], -5⟩) [⟨1, MOUSE_STATE_NONE⟩]).2 ∧
    Action.ungrab 1 ∈ (loop_iteration (fun _ => ⟨[], -5⟩) [⟨1, MOUSE_STATE_NONE⟩]).2 ∧
    Action.freeDev 1 ∈ (loop_iteration (fun _ => ⟨[], -5⟩) [⟨1, MOUSE_STATE_NONE⟩]).2 ∧
    Action.closeFd 1 ∈ (loop_iteration (fun _ => ⟨[], -5⟩) [⟨1, MOUSE_STATE_NONE⟩]).2 ∧
    (loop_iteration (fun _ => ⟨[], -5⟩)
        [⟨1, MOUSE_STATE_NONE⟩]).2.countP is_destroy_uinput = 0 ∧
    (drain_mouse ⟨1, MOUSE_STATE_NONE⟩ ⟨[], -EAGAIN⟩).1 = ⟨1, MOUSE_STATE_NONE⟩ := by
  decide

/-- C8: after the stop signal is observed, every mouse still in the registry
is marked Dead and swept exactly once: the final sweep empties the registry
and releases each mouse's exclusive grab exactly once. -/
theorem shutdown_sweeps_all (mice : List LUMouse)
    (hnd : (mice.map (fun m => m.id)).Nodup) :
    (shutdown_sweep mice).1 = [] ∧
    ∀ m ∈ mice, (shutdown_sweep mice).2.countP (is_ungrab_of m.id) = 1 := by
  have hdead : ∀ x ∈ mice.map
      (fun m => (⟨m.id, m.state ||| MOUSE_STATE_DEAD⟩ : LUMouse)),
      x.state &&& MOUSE_STATE_DEAD ≠ 0 := by
    intro x hx
    simp only [List.mem_map] at hx
    obtain ⟨m, -, rfl⟩ := hx
    simp only [lor_dead_land]
    decide
  have hs := sweep_dead_all _ hdead
  unfold shutdown_sweep unregister_dead_mice
  rw [hs]
  refine ⟨rfl, ?_⟩
  intro m hm
  rw [countP_ungrab_release_traces]
  have hmap : (mice.map
      (fun m => (⟨m.id, m.state ||| MOUSE_STATE_DEAD⟩ : LUMouse))).map
        (fun m => m.id) = mice.map (fun m => m.id) := by
    rw [List.map_map]
    rfl
  rw [hmap]
  exact List.count_eq_one_of_mem hnd (List.mem_map_of_mem _ hm)

/-- Witness for C8 with a two-mouse registry (one Idle, one Scrolling). -/
theorem shutdown_sweeps_all_witness :
    (([⟨1, MOUSE_STATE_NONE⟩, ⟨2, MOUSE_STATE_SCROLLING⟩] : List LUMouse).map
      (fun m => m.id)).Nodup ∧
    ((shutdown_sweep [⟨1, MOUSE_STATE_NONE⟩, ⟨2, MOUSE_STATE_SCROLLING⟩]).1 = [] ∧
     ∀ m ∈ ([⟨1, MOUSE_STATE_NONE⟩, ⟨2, MOUSE_STATE_SCROLLING⟩] : List LUMouse),
       (shutdown_sweep [⟨1, MOUSE_STATE_NONE⟩,
         ⟨2, MOUSE_STATE_SCROLLING⟩]).2.countP (is_ungrab_of m.id) = 1) :=
  ⟨by decide,
   shutdown_sweeps_all [⟨1, MOUSE_STATE_NONE⟩, ⟨2, MOUSE_STATE_SCROLLING⟩] (by decide)⟩

/-- C10: unregistering a mouse that is not an element of the registry list
(as happens when cleaning up a failed registration attempt) leaves the
registry list exactly unchanged. -/
theorem unregister_non_member_frame (mice : List LUMouse) (mouse : LUMouse)
    (h : mouse.id ∉ mice.map (fun m => m.id)) :
    (unregister_mouse mice (some mouse)).1 = mice := by
  simp [unregister_mouse, unlink_not_mem h]

/-- Witness for C10: removing an outside node from a two-entry registry. -/
theorem unregister_non_member_frame_witness :
    (LUMouse.mk 3 MOUSE_STATE_NONE).id ∉
      ([⟨1, MOUSE_STATE_NONE⟩, ⟨2, MOUSE_STATE_SCROLLING⟩] : List LUMouse).map
        (fun m => m.id) ∧
    (unregister_mouse [⟨1, MOUSE_STATE_NONE⟩, ⟨2, MOUSE_STATE_SCROLLING⟩]
        (some ⟨3, MOUSE_STATE_NONE⟩)).1 =
      [⟨1, MOUSE_STATE_NONE⟩, ⟨2, MOUSE_STATE_SCROLLING⟩] :=
  ⟨by decide,
   unregister_non_member_frame [⟨1, MOUSE_STATE_NONE⟩, ⟨2, MOUSE_STATE_SCROLLING⟩]
     ⟨3, MOUSE_STATE_NONE⟩ (by decide)⟩

end Luscroll
